import Mathlib

/-
Verification of the vapi-cal-backend service (src/cal_client.py, src/main.py,
src/models.py, src/config.py) against its natural-language specification.

The embedding below translates the Python source into pure Lean functions:
  * dates and wall-clock times become explicit structures and Nat arithmetic
    (Python datetime overflow/borrow is modelled by explicit day borrowing);
  * every remote HTTP interaction is modelled by passing the provider's
    response as an explicit value (`ProviderEnv`), and the number of outbound
    calls an operation performs is returned alongside its result;
  * Python exceptions become `Except`/`Option` values; distinct raise sites
    in `CalClient.book_appointment` become distinct constructors of
    `BookFailure` (in the source they are all `Exception` values that differ
    only in their message text);
  * the mutable `CalClient.user_id` field becomes explicit state passing
    (`ClientState`).
-/

namespace VapiCal

/-- Calendar date (year, month, day), as Python `datetime.date`. -/
structure Date where
  year : Nat
  month : Nat
  day : Nat
deriving DecidableEq, Repr

def isLeapYear (y : Nat) : Bool :=
  y % 4 == 0 && (y % 100 != 0 || y % 400 == 0)

def daysInMonth (y m : Nat) : Nat :=
  if m == 2 then (if isLeapYear y then 29 else 28)
  else if m == 4 || m == 6 || m == 9 || m == 11 then 30
  else 31

/-- The calendar day before `d` (used when subtracting the IST offset crosses
midnight, as `datetime - timedelta` does in `book_appointment`). -/
def prevDay (d : Date) : Date :=
  if d.day > 1 then ⟨d.year, d.month, d.day - 1⟩
  else if d.month > 1 then ⟨d.year, d.month - 1, daysInMonth d.year (d.month - 1)⟩
  else ⟨d.year - 1, 12, 31⟩

/-- Python `date.__lt__` (lexicographic on year, month, day), used by the
handler's `request.target_date < date.today()` check in main.py. -/
def dateLt (a b : Date) : Bool :=
  a.year < b.year ||
    (a.year == b.year &&
      (a.month < b.month || (a.month == b.month && a.day < b.day)))

def digitChar (n : Nat) : Char := Char.ofNat (48 + n)

/-- Python `f"{n:02d}"` / strftime zero-padded field, for n < 100. -/
def twoDig (n : Nat) : String :=
  String.mk [digitChar (n / 10 % 10), digitChar (n % 10)]

/-- strftime `%Y` zero-padded to 4 digits, for years < 10000. -/
def fourDig (n : Nat) : String :=
  String.mk [digitChar (n / 1000 % 10), digitChar (n / 100 % 10),
             digitChar (n / 10 % 10), digitChar (n % 10)]

/-- strftime `"%Y-%m-%d"`. -/
def dateStr (d : Date) : String :=
  fourDig d.year ++ "-" ++ twoDig d.month ++ "-" ++ twoDig d.day

/-- strftime `"%H:%M"` of a minute-of-day value (t < 1440). -/
def timeOfMinutes (t : Nat) : String :=
  twoDig (t / 60) ++ ":" ++ twoDig (t % 60)

def digitVal (c : Char) : Option Nat :=
  if c.isDigit then some (c.toNat - 48) else none

/-- Python `datetime.strptime(s, "%H:%M")`, returning the parsed
(hour, minute) or `none` for a `ValueError`.  CPython compiles the format to
the anchored regex `(2[0-3]|[0-1]\d|\d):([0-5]\d|\d)` and rejects any
unconverted trailing data, so the accepted strings are exactly: a 1- or
2-digit hour (2-digit forms 00..23, 1-digit forms 0..9), a colon, and a
1- or 2-digit minute (2-digit forms 00..59, 1-digit forms 0..9). -/
def pyStrptimeHM (s : String) : Option (Nat × Nat) :=
  match s.data with
  | [a, b, ':', c, d] =>
    match digitVal a, digitVal b, digitVal c, digitVal d with
    | some x, some y, some u, some v =>
      if 10 * x + y ≤ 23 && u ≤ 5 then some (10 * x + y, 10 * u + v) else none
    | _, _, _, _ => none
  | [a, b, ':', c] =>
    match digitVal a, digitVal b, digitVal c with
    | some x, some y, some u =>
      if 10 * x + y ≤ 23 then some (10 * x + y, u) else none
    | _, _, _ => none
  | [a, ':', c, d] =>
    match digitVal a, digitVal c, digitVal d with
    | some x, some u, some v =>
      if u ≤ 5 then some (x, 10 * u + v) else none
    | _, _, _ => none
  | [a, ':', c] =>
    match digitVal a, digitVal c with
    | some x, some u => some (x, u)
    | _, _ => none
  | _ => none

/-- Whether a string matches 24-hour `HH:MM` syntax exactly (two-digit hour
00..23, colon, two-digit minute 00..59) — the format named by the spec. -/
def isExactHHMM (s : String) : Bool :=
  s.data.length == 5 && (pyStrptimeHM s).isSome

/-- `CalClient._add_minutes_to_time`: strptime the string as `%H:%M`, add a
`timedelta` of `minutes`, and strftime `%H:%M` (which reduces the total
modulo one day); on a parse failure the input string is returned unchanged. -/
def addMinutesToTime (time_str : String) (minutes : Nat) : String :=
  match pyStrptimeHM time_str with
  | some (h, m) => timeOfMinutes ((h * 60 + m + minutes) % 1440)
  | none => time_str

/-- Characters of `email.split('@')[0]`: everything before the first `@`
(the whole string when there is no `@`). -/
def beforeAt : List Char → List Char
  | [] => []
  | c :: rest => if c = '@' then [] else c :: beforeAt rest

def dotToSpace (c : Char) : Char := if c = '.' then ' ' else c

/-- Python `str.title()` on ASCII input: a letter is uppercased when the
previous character is not a letter, lowercased otherwise. -/
def pyTitleGo : Bool → List Char → List Char
  | _, [] => []
  | prevAlpha, c :: rest =>
    (if c.isAlpha then (if prevAlpha then c.toLower else c.toUpper) else c)
      :: pyTitleGo c.isAlpha rest

/-- `CalClient._derive_name_from_email`: part before `@`, dots replaced by
spaces, then title-cased. -/
def deriveNameFromEmail (email_id : String) : String :=
  String.mk (pyTitleGo false ((beforeAt email_id.data).map dotToSpace))

def take2D : List Char → Option (Nat × List Char)
  | a :: b :: rest =>
    match digitVal a, digitVal b with
    | some x, some y => some (10 * x + y, rest)
    | _, _ => none
  | _ => none

def take4D : List Char → Option (Nat × List Char)
  | a :: b :: c :: d :: rest =>
    match digitVal a, digitVal b, digitVal c, digitVal d with
    | some x, some y, some u, some v => some (1000 * x + 100 * y + 10 * u + v, rest)
    | _, _, _, _ => none
  | _ => none

/-- Count and drop a leading run of digits. -/
def takeDigits : List Char → Nat × List Char
  | [] => (0, [])
  | c :: rest =>
    if c.isDigit then
      let (n, r) := takeDigits rest
      (n + 1, r)
    else (0, c :: rest)

/-- Optional `:SS[.ffffff]` tail of an ISO time (seconds 00..59, fractional
part 1..6 digits as accepted by Python 3.11 `fromisoformat`); returns the
remaining characters, or `none` when the tail is malformed. -/
def parseSecTail (l : List Char) : Option (List Char) :=
  match l with
  | ':' :: r =>
    match take2D r with
    | some (sec, r2) =>
      if sec ≤ 59 then
        match r2 with
        | '.' :: r3 =>
          let (n, r4) := takeDigits r3
          if 1 ≤ n && n ≤ 6 then some r4 else none
        | _ => some r2
      else none
    | none => none
  | _ => some l

/-- Optional trailing UTC offset `±HH:MM` (must end the string); returns the
signed offset in minutes, `some none` for a naive datetime, `none` when the
tail is malformed.  `fromisoformat` requires the offset to be strictly less
than 24 hours with minutes 00..59. -/
def parseOffEnd (l : List Char) : Option (Option Int) :=
  match l with
  | [] => some none
  | '+' :: a :: b :: ':' :: c :: d :: [] =>
    match digitVal a, digitVal b, digitVal c, digitVal d with
    | some x, some y, some u, some v =>
      let h := 10 * x + y
      let m := 10 * u + v
      if h ≤ 23 && m ≤ 59 then some (some ((h * 60 + m : Nat) : Int)) else none
    | _, _, _, _ => none
  | '-' :: a :: b :: ':' :: c :: d :: [] =>
    match digitVal a, digitVal b, digitVal c, digitVal d with
    | some x, some y, some u, some v =>
      let h := 10 * x + y
      let m := 10 * u + v
      if h ≤ 23 && m ≤ 59 then some (some (-((h * 60 + m : Nat) : Int))) else none
    | _, _, _, _ => none
  | _ => none

/-- Python `datetime.fromisoformat` on the shapes this service feeds it
(Python 3.11 semantics): `YYYY-MM-DD`, separator `T`, `HH:MM[:SS[.ffffff]]`,
optional `+HH:MM`/`-HH:MM` offset.  Returns the wall-clock date, hour and
minute together with the offset in minutes (`none` for a naive value);
seconds and fractions are validated but dropped, since every downstream use
formats with minute precision.  Field ranges are validated as CPython does. -/
def pyFromIso (s : String) : Option (Date × Nat × Nat × Option Int) :=
  match take4D s.data with
  | none => none
  | some (y, r1) =>
    match r1 with
    | '-' :: r2 =>
      match take2D r2 with
      | none => none
      | some (mo, r3) =>
        match r3 with
        | '-' :: r4 =>
          match take2D r4 with
          | none => none
          | some (da, r5) =>
            match r5 with
            | 'T' :: r6 =>
              match take2D r6 with
              | none => none
              | some (h, r7) =>
                match r7 with
                | ':' :: r8 =>
                  match take2D r8 with
                  | none => none
                  | some (mi, r9) =>
                    match parseSecTail r9 with
                    | none => none
                    | some r10 =>
                      match parseOffEnd r10 with
                      | none => none
                      | some off =>
                        if 1 ≤ y && 1 ≤ mo && mo ≤ 12 && 1 ≤ da &&
                           da ≤ daysInMonth y mo && h ≤ 23 && mi ≤ 59
                        then some (⟨y, mo, da⟩, h, mi, off)
                        else none
                | _ => none
            | _ => none
        | _ => none
    | _ => none

/-- `start_time.replace('Z', '+00:00')` from `_process_real_availability`:
every `Z` is replaced by `+00:00`. -/
def replaceZchars : List Char → List Char
  | [] => []
  | c :: rest =>
    if c = 'Z' then '+' :: '0' :: '0' :: ':' :: '0' :: '0' :: replaceZchars rest
    else c :: replaceZchars rest

/-- IST (UTC+5:30) wall clock `(hour, minute)` of a UTC instant given by its
minute-of-day on the UTC clock — `utc_time.astimezone(ist_timezone)` followed
by `strftime("%H:%M")` in `_process_real_availability`. -/
def utcToIstHM (utcMin : Int) : Nat × Nat :=
  (((utcMin + 330) % 1440).toNat / 60, ((utcMin + 330) % 1440).toNat % 60)

/-- `start_dt - ist_offset` in `book_appointment`: subtract the fixed 5h30m
IST offset from a local wall-clock datetime, borrowing one calendar day when
the subtraction crosses midnight. -/
def istToUtc (d : Date) (localMin : Nat) : Date × Nat :=
  if 330 ≤ localMin then (d, localMin - 330) else (prevDay d, localMin + 1110)

def prefOf : List Char → List Char → Bool
  | [], _ => true
  | _ :: _, [] => false
  | a :: as, b :: bs => a == b && prefOf as bs

def subOf (s : List Char) : List Char → Bool
  | [] => s.isEmpty
  | c :: tl => prefOf s (c :: tl) || subOf s tl

/-- Python `needle in hay` substring test. -/
def strContains (hay needle : String) : Bool :=
  subOf needle.data hay.data

def containsChar (s : String) (c : Char) : Bool := s.data.contains c

/-- Characters strictly between the first and second `T` (the end of the
string when there is no second `T`). -/
def untilT : List Char → List Char
  | [] => []
  | c :: rest => if c = 'T' then [] else c :: untilT rest

def afterFirstT : List Char → List Char
  | [] => []
  | c :: rest => if c = 'T' then untilT rest else afterFirstT rest

/-- `start_time.split("T")[1][:5]` — the fallback extraction used when the
timezone conversion of a slot raises. -/
def fallbackTimePart (s : String) : String :=
  String.mk ((afterFirstT s.data).take 5)

/-- One entry of the provider's per-date slot list.  `obj time` is a dict
entry, with `time` modelling `slot.get("time", "")` (`none` when the key is
absent); `nonDict` is an entry that is not a dict at all (e.g. a bare
string), for which `slot.get` at line 491 raises `AttributeError` — and that
line sits outside the per-slot `try`, so the exception escapes to the
function-level handler. -/
inductive SlotEntry where
  | obj (time : Option String)
  | nonDict
deriving DecidableEq, Repr

/-- A caller-facing availability slot, as appended by
`_process_real_availability` / `_generate_business_hours`. -/
structure Slot where
  start_time : String
  end_time : String
  available : Bool
deriving DecidableEq, Repr

/-- The slot dictionary appended for a converted start time: end time is
always start + 30 minutes (hardcoded at lines 512 and 522, independent of
the event-type duration), `available` always true. -/
def mkSlot (time_part : String) : Slot :=
  ⟨time_part, addMinutesToTime time_part 30, true⟩

def hmToTimePart (p : Nat × Nat) : String := timeOfMinutes (p.1 * 60 + p.2)

/-- The strftime(`%H:%M`) of a parsed slot instant converted to IST: the
wall-clock minutes minus the string's own offset (or the host-zone offset
for a naive string), shifted by +5:30. -/
def convertedTimePart (hostOffset : Int) (h mi : Nat) (off : Option Int) : String :=
  hmToTimePart (utcToIstHM (((h * 60 + mi : Nat) : Int) - off.getD hostOffset))

/-- Per-slot conversion of a dict entry inside the loop of
`CalClient._process_real_availability` (lines 489-529): `none` means the
slot is skipped.  A slot whose `time` is missing or empty fails the
`if start_time:` guard; a slot without a `T` is skipped as an invalid
format; otherwise `Z` is replaced by `+00:00`, `fromisoformat` is attempted
and the instant converted to IST, and on a parse failure the code falls
back to `split("T")[1][:5]` on the raw string.  `hostOffset` is the host
system's UTC offset in minutes: `astimezone` on a naive datetime interprets
it in the host zone, an environment dependency made explicit here. -/
def parseSlotTime (hostOffset : Int) (time : Option String) : Option Slot :=
  if time.getD "" = "" then none
  else if containsChar (time.getD "") 'T' then
    match pyFromIso (String.mk (replaceZchars (time.getD "").data)) with
    | some (_, h, mi, off) => some (mkSlot (convertedTimePart hostOffset h mi off))
    | none => some (mkSlot (fallbackTimePart (time.getD "")))
  else none

/-- Python `slots_data.get(target_date_str, [])`. -/
def lookupSlots : List (String × List SlotEntry) → String → List SlotEntry
  | [], _ => []
  | (k, v) :: rest, key => if k = key then v else lookupSlots rest key

/-- The `for slot in date_slots` loop of `_process_real_availability`:
`some slots` is a completed run, `none` an aborted one.  A `nonDict` entry
raises `AttributeError` at `slot.get("time", "")` (line 491), which sits
outside the per-slot `try` (line 493), so the exception escapes the loop to
the function-level handler and everything accumulated so far is discarded;
entries after the raising one are never reached.  Dict entries are converted
or skipped individually per `parseSlotTime`. -/
def processEntries (hostOffset : Int) : List SlotEntry → Option (List Slot)
  | [] => some []
  | .nonDict :: _ => none
  | .obj t :: rest =>
    match processEntries hostOffset rest with
    | none => none
    | some tail =>
      match parseSlotTime hostOffset t with
      | some s => some (s :: tail)
      | none => some tail

/-- `CalClient._process_real_availability`: the slots recorded under the
target date in `data.data.slots`, each converted or skipped per
`parseSlotTime`; when the loop raises (a non-dict entry), the function-level
`except` at lines 534-537 returns the empty list, discarding every valid
slot of the response. -/
def processRealAvailability (slots_data : List (String × List SlotEntry))
    (target_date : Date) (hostOffset : Int) : List Slot :=
  match processEntries hostOffset (lookupSlots slots_data (dateStr target_date)) with
  | some slots => slots
  | none => []

/-- `CalClient._generate_business_hours`: fabricated 30-minute slots on the
hour and half hour from 09:00 to 17:00 (the date argument is unused by the
source too). -/
def generateBusinessHours (_target_date : Date) : List Slot :=
  ((List.range 8).map (fun i => 9 + i)).flatMap (fun hour =>
    [0, 30].map (fun minute =>
      let endMinute := minute + 30
      let endHour := if endMinute ≥ 60 then hour + 1 else hour
      let endMin := if endMinute ≥ 60 then 0 else endMinute
      (⟨twoDig hour ++ ":" ++ twoDig minute,
        twoDig endHour ++ ":" ++ twoDig endMin, true⟩ : Slot)))

/-- `CalClient._process_availability` (legacy helper, not reachable from any
endpoint): pass through an `available_slots` field when present, otherwise
fabricate default business hours. -/
def processAvailability (available_slots_field : Option (List Slot))
    (target_date : Date) : List Slot :=
  match available_slots_field with
  | some slots => slots.map (fun s => ⟨s.start_time, s.end_time, true⟩)
  | none => generateBusinessHours target_date

/-- A provider event type as the code reads it from responses; `length`
models `event_type.get("length", 30)` (absent key → default 30) and `teamId`
models `event_type.get("teamId")`. -/
structure EventType where
  id : Nat
  slug : String
  title : String
  length : Option Nat
  teamId : Option Nat
deriving DecidableEq, Repr

/-- One element of `data.data.eventTypeGroups` in the `/event-types`
response. -/
structure EventTypeGroup where
  teamId : Option Nat
  eventTypes : List EventType
deriving DecidableEq, Repr

/-- The `/event-types` listing response: HTTP status plus the parsed
`eventTypeGroups`. -/
structure EventTypesResponse where
  status : Nat
  eventTypeGroups : List EventTypeGroup
deriving DecidableEq, Repr

/-- A slots endpoint response: HTTP status plus the parsed
`data.data.slots` mapping (date string → slot entries). -/
structure SlotsResponse where
  status : Nat
  slots : List (String × List SlotEntry)
deriving DecidableEq, Repr

/-- The `/me` response as `_get_user_id` reads it: `httpOk` models
`raise_for_status` passing, `status` the JSON `status` field, `data_id` the
`data.id` field (`none` covers both a missing/empty `data` object and a
missing `id`). -/
structure MeResponse where
  httpOk : Bool
  status : String
  data_id : Option Nat
deriving DecidableEq, Repr

/-- The `POST /bookings` response: `created` is HTTP 201 with the `data`
object's fields, `declined` any other status with the error JSON's
`message` and `error.code`. -/
inductive BookingResponse where
  | created (uid startStr endStr title : Option String)
  | declined (message : String) (code : String)
deriving DecidableEq, Repr

/-- The remote provider, modelled as the responses it would return on each
endpoint the client can address.  `teamEventTypes` stands for the per-team
event-type listings (`/teams/id/event-types`) that the spec's strategy 2
would consult; no code under src/ ever queries them. -/
structure ProviderEnv where
  eventTypesResp : EventTypesResponse
  teamEventTypes : Nat → List EventType
  teamSlotsResp : SlotsResponse
  personalSlotsResp : SlotsResponse
  meResp : MeResponse
  bookingResp : BookingResponse

/-- The mutable state of a `CalClient` instance: only `user_id` exists as a
cache field (`__init__` line 18); there is no field caching the resolved
event type. -/
structure ClientState where
  user_id : Option Nat
deriving DecidableEq, Repr

/-- `CalClient.__init__`: `self.user_id = None`. -/
def initState : ClientState := ⟨none⟩

/-- `CalClient._get_user_id`, as result × new state × number of remote GETs.
`if self.user_id:` is a Python truthiness test, so a cached 0 would not
short-circuit; on any fetch failure the method logs and returns `None`
without raising. -/
def getUserIdS (st : ClientState) (r : MeResponse) : Option Nat × ClientState × Nat :=
  if st.user_id.getD 0 ≠ 0 then (st.user_id, st, 0)
  else if !r.httpOk then (none, st, 1)
  else if r.status = "success" then
    match r.data_id with
    | some uid => if uid ≠ 0 then (some uid, ⟨some uid⟩, 1) else (none, st, 1)
    | none => (none, st, 1)
  else (none, st, 1)

/-- The flattening loop of `_get_event_type` (lines 360-373): both personal
and team groups are appended, in response order. -/
def flattenGroups (groups : List EventTypeGroup) : List EventType :=
  groups.foldl (fun acc g => acc ++ g.eventTypes) []

/-- `CalClient._get_event_type`: one GET of `/event-types`, scan the
flattened groups for the configured slug; on a non-200 status, an empty
listing, or no slug match the method raises (wrapped by its outer handler
into the returned message).  No other endpoint is consulted. -/
def getEventTypeR (slug : String) (env : ProviderEnv) : Except String EventType :=
  if env.eventTypesResp.status = 200 then
    match (flattenGroups env.eventTypesResp.eventTypeGroups).find?
        (fun et => et.slug == slug) with
    | some et => .ok et
    | none =>
      .error ("Failed to get event type details: Event type \x27" ++ slug ++ "\x27 not found")
  else
    .error ("Failed to get event type details: Event type \x27" ++ slug ++ "\x27 not found")

/-- `_get_event_type` viewed with the client state threaded through, to make
its caching behaviour comparable with `_get_user_id`: the state is unchanged
(no cache field exists) and every call performs one remote listing GET. -/
def getEventTypeS (slug : String) (st : ClientState) (env : ProviderEnv) :
    Except String EventType × ClientState × Nat :=
  (getEventTypeR slug env, st, 1)

/-- The value `check_availability` returns on its success paths. -/
structure AvailResult where
  success : Bool
  target_date : String
  available_slots : List Slot
  message : String
deriving DecidableEq, Repr

/-- `CalClient.check_availability`: resolve the event type (propagating its
failure wrapped by the outer handler), branch on `if team_id:` (Python
truthiness, so `teamId` 0 or absent takes the personal branch), and on a 200
slots response return success with the processed slots; any non-200 status
raises, wrapped into `Failed to check availability: ...`. -/
def checkAvailability (slug : String) (env : ProviderEnv) (target_date : Date)
    (hostOffset : Int) : Except String AvailResult :=
  match getEventTypeR slug env with
  | .error e => .error ("Failed to check availability: " ++ e)
  | .ok et =>
    if et.id = 0 then .error "Failed to check availability: Event type ID not found"
    else if et.teamId.getD 0 ≠ 0 then
      if env.teamSlotsResp.status = 200 then
        let available_slots := processRealAvailability env.teamSlotsResp.slots target_date hostOffset
        .ok ⟨true, dateStr target_date, available_slots,
             "Found " ++ toString available_slots.length ++ " available slots"⟩
      else
        .error ("Failed to check availability: Failed to check team availability: HTTP "
                ++ toString env.teamSlotsResp.status)
    else
      if env.personalSlotsResp.status = 200 then
        let available_slots := processRealAvailability env.personalSlotsResp.slots target_date hostOffset
        .ok ⟨true, dateStr target_date, available_slots,
             "Found " ++ toString available_slots.length ++ " available slots"⟩
      else
        .error ("Failed to check availability: Failed to check personal availability: HTTP "
                ++ toString env.personalSlotsResp.status)

/-- The JSON body `book_appointment` posts to `/bookings` (the fields the
source builds at lines 232-245; `metadata` is always empty and omitted). -/
structure BookingPayload where
  start : String
  attendee_name : String
  attendee_email : String
  attendee_timeZone : String
  eventTypeId : Nat
  eventTypeSlug : String
  username : String
  teamSlug : String
deriving DecidableEq, Repr

/-- The success dictionary `book_appointment` returns (its
`appointment_details` sub-dictionary repeats `booking_id` and echoes
response fields, and is omitted here). -/
structure BookResult where
  success : Bool
  booking_id : String
  message : String
deriving DecidableEq, Repr

/-- Remediation text raised when the decline message equals
`no_available_users_found_error` (source line 293-296). -/
def noAssigneeSlotHint : String :=
  "No team members available for this time slot. Please check team member availability or contact your administrator."

/-- Remediation text raised when the decline message merely contains
`no_available_users_found_error` (source line 298-301). -/
def noAssigneeMembersHint : String :=
  "No team members are assigned to this event type. Please contact your administrator to assign team members."

/-- The failure a booking ends in.  In the source every failure is a plain
`Exception`; the two `no_available_users_found_error` raise sites carry the
remediation hints above and are modelled as the `noAvailableAssignee`
constructor, every other raise as `generic`. -/
inductive BookFailure where
  | noAvailableAssignee (hint : String)
  | generic (msg : String)
deriving DecidableEq, Repr

/-- The decline translation of `book_appointment` (source lines 282-303). -/
def classifyDecline (message code : String) : BookFailure :=
  if message == "no_available_users_found_error" then
    .noAvailableAssignee noAssigneeSlotHint
  else if strContains message "no_available_users_found_error" then
    .noAvailableAssignee noAssigneeMembersHint
  else
    .generic ("Cal.com API v2 error: " ++ message ++ " (Code: " ++ code ++ ")")

/-- The outer `except Exception` of `book_appointment` (line 325-326)
prefixes every raised message; the constructor (raise site) is preserved. -/
def surfacedMessage : BookFailure → String
  | .noAvailableAssignee h => "Failed to book appointment: " ++ h
  | .generic m => "Failed to book appointment: " ++ m

/-- `CalClient.book_appointment(target_date, time, email_id)`, returning the
updated client state, the number of `POST /bookings` calls made, and either
the failure or the posted payload together with the returned result.
Mirrors the source: fetch the user id (result unused by the rest of the
method), resolve the event type, derive the attendee name from the email,
parse `f"{target_date}T{time}:00"` with `fromisoformat`, subtract the fixed
5h30m IST offset, format the UTC start with a trailing `Z`, post once, and
translate the response.  No call is retried. -/
def bookAppointment (slug : String) (st : ClientState) (env : ProviderEnv)
    (target_date time email_id : String) :
    ClientState × Nat × Except BookFailure (BookingPayload × BookResult) :=
  let st1 := (getUserIdS st env.meResp).2.1
  match getEventTypeR slug env with
  | .error e => (st1, 0, .error (.generic e))
  | .ok et =>
    let candidate_name := deriveNameFromEmail email_id
    match pyFromIso (target_date ++ "T" ++ time ++ ":00") with
    | none =>
      (st1, 0, .error (.generic ("Invalid isoformat string: " ++ target_date ++ "T" ++ time ++ ":00")))
    | some (d, h, mi, _off) =>
      let localMin := h * 60 + mi
      let utc := istToUtc d localMin
      let start_time := dateStr utc.1 ++ "T" ++ timeOfMinutes utc.2 ++ ":00Z"
      let booking_data : BookingPayload :=
        ⟨start_time, candidate_name, email_id, "Asia/Kolkata",
         et.id, et.slug, "roshan-flavis", "soraaya-team"⟩
      match env.bookingResp with
      | .created uid _s _e _t =>
        (st1, 1, .ok (booking_data,
          ⟨true, uid.getD "unknown", "Appointment booked successfully"⟩))
      | .declined message code =>
        (st1, 1, .error (classifyDecline message code))

/-- A parsed inbound `BookAppointmentRequest` (models.py): the HTTP layer
has already coerced `target_date` to a date; `time` and `candidate_name`
are plain strings. -/
structure BookRequest where
  target_date : Date
  time : String
  candidate_name : String
deriving DecidableEq, Repr

/-- Outcome of the `/webhook/book-appointment` handler: an `HTTPException`
with a 4xx status, the generic 500 translation of an uncaught exception, or
a success body (never produced, see C3). -/
inductive HandlerResult where
  | clientError (status : Nat) (detail : String)
  | serverError (status : Nat) (detail : String)
  | success (booking_id : String)
deriving DecidableEq, Repr

/-- The parameter names of `CalClient.book_appointment` (cal_client.py
line 192). -/
def bookAppointmentParams : List String := ["target_date", "time", "email_id"]

/-- The keyword names main.py line 155-159 passes to
`cal_client.book_appointment`. -/
def handlerCallKeywords : List String :=
  ["appointment_date", "appointment_time", "candidate_name"]

/-- The 500 detail produced when the keyword call raises `TypeError` and the
handler's `except Exception` converts it (quotes of the Python message
elided). -/
def typeErrorDetail : String :=
  "Failed to book appointment: book_appointment() got an unexpected keyword argument appointment_date"

/-- Python keyword-argument call semantics for
`cal_client.book_appointment(**kwargs)`: the call body `run` executes only
when every keyword names a parameter and every required parameter is
supplied; otherwise Python raises `TypeError` before any body code (and so
before any remote call), which the handler turns into a 500. -/
def callBookAppointmentKw (kwargs : List String)
    (run : Unit → Nat × HandlerResult) : Nat × HandlerResult :=
  if kwargs.all (fun k => bookAppointmentParams.contains k)
     && bookAppointmentParams.all (fun k => kwargs.contains k)
  then run ()
  else (0, .serverError 500 typeErrorDetail)

/-- The `/webhook/book-appointment` handler (main.py lines 124-175), as
(number of remote provider calls made) × result.  `run` abstracts what a
successful dispatch into `CalClient.book_appointment` would do; it is only
reached when the keyword names match. -/
def handlerBookAppointment (today : Date) (req : BookRequest)
    (run : Unit → Nat × HandlerResult) : Nat × HandlerResult :=
  if dateLt req.target_date today then
    (0, .clientError 400 "Cannot book appointments for past dates")
  else if (pyStrptimeHM req.time).isNone then
    (0, .clientError 400 "Invalid time format. Please use HH:MM format (e.g., 14:30)")
  else
    callBookAppointmentKw handlerCallKeywords run

/-- A team event type with duration 30 under the configured slug, as the C1
scenario's provider advertises it. -/
def etC1 : EventType := ⟨1234, "build3-demo", "Build3 Demo", some 30, some 85823⟩

/-- C1 scenario provider: event duration 30, booking accepted with issued
identifier `bk_7f3a2c`. -/
def envC1 : ProviderEnv where
  eventTypesResp := ⟨200, [⟨some 85823, [etC1]⟩]⟩
  teamEventTypes := fun _ => []
  teamSlotsResp := ⟨200, []⟩
  personalSlotsResp := ⟨200, []⟩
  meResp := ⟨true, "success", some 42⟩
  bookingResp := .created (some "bk_7f3a2c") (some "2025-08-22T08:30:00Z")
    (some "2025-08-22T09:00:00Z") (some "Build3<> John Smith")

/-- An event type carried only by a team-scoped listing. -/
def etTeamOnly : EventType := ⟨777, "build3-demo", "Build3 Demo", some 30, some 85823⟩

/-- C2 provider: the all-visible listing succeeds but is empty; only the
team-scoped listing for team 85823 contains the target slug. -/
def envC2 : ProviderEnv where
  eventTypesResp := ⟨200, []⟩
  teamEventTypes := fun t => if t = 85823 then [etTeamOnly] else []
  teamSlotsResp := ⟨200, []⟩
  personalSlotsResp := ⟨200, []⟩
  meResp := ⟨true, "success", some 42⟩
  bookingResp := .declined "x" "x"

/-- `envC2` with all team-scoped listings emptied. -/
def envC2b : ProviderEnv :=
  { envC2 with teamEventTypes := fun _ => [] }

/-- A team event type with duration 60, for the C4 counterexample. -/
def etC4 : EventType := ⟨1234, "build3-demo", "Build3 Demo", some 60, some 85823⟩

/-- C4 provider: event duration 60, one 04:30 UTC slot on 2025-08-22. -/
def envC4 : ProviderEnv where
  eventTypesResp := ⟨200, [⟨some 85823, [etC4]⟩]⟩
  teamEventTypes := fun _ => []
  teamSlotsResp := ⟨200, [("2025-08-22", [.obj (some "2025-08-22T04:30:00.000Z")])]⟩
  personalSlotsResp := ⟨200, []⟩
  meResp := ⟨true, "success", some 42⟩
  bookingResp := .declined "x" "x"

/-- C7 provider: slots endpoint answers 200 with no slots for the date. -/
def envC7 : ProviderEnv where
  eventTypesResp := ⟨200, [⟨some 85823, [etC1]⟩]⟩
  teamEventTypes := fun _ => []
  teamSlotsResp := ⟨200, [("2025-08-23", [])]⟩
  personalSlotsResp := ⟨200, []⟩
  meResp := ⟨true, "success", some 42⟩
  bookingResp := .declined "x" "x"

/-- `envC7` with the slots endpoint failing with HTTP 500. -/
def envC7b : ProviderEnv :=
  { envC7 with teamSlotsResp := ⟨500, []⟩ }

/-- C8 provider: the booking is declined with the
`no_available_users_found_error` code. -/
def envC8 : ProviderEnv where
  eventTypesResp := ⟨200, [⟨some 85823, [etC1]⟩]⟩
  teamEventTypes := fun _ => []
  teamSlotsResp := ⟨200, []⟩
  personalSlotsResp := ⟨200, []⟩
  meResp := ⟨true, "success", some 42⟩
  bookingResp := .declined "no_available_users_found_error" "no_available_users_found_error"

/-- C9 provider: one well-formed slot, one malformed dict slot (no `T`),
one dict slot missing its `time` key — all dict-shaped, so the loop
completes. -/
def envC9 : ProviderEnv where
  eventTypesResp := ⟨200, [⟨some 85823, [etC1]⟩]⟩
  teamEventTypes := fun _ => []
  teamSlotsResp := ⟨200, [("2025-08-22",
      [.obj (some "2025-08-22T04:30:00.000Z"), .obj (some "garbage"), .obj none])]⟩
  personalSlotsResp := ⟨200, []⟩
  meResp := ⟨true, "success", some 42⟩
  bookingResp := .declined "x" "x"

/-- C10 provider: listing contains the slug, so resolution succeeds. -/
def envC10 : ProviderEnv where
  eventTypesResp := ⟨200, [⟨some 85823, [etC1]⟩]⟩
  teamEventTypes := fun _ => []
  teamSlotsResp := ⟨200, []⟩
  personalSlotsResp := ⟨200, []⟩
  meResp := ⟨true, "success", some 42⟩
  bookingResp := .declined "x" "x"

/-- C1: for the booking request with target_date 2025-08-22, local time
14:00 and attendee email john.smith@co.com, against a provider whose event
type has duration 30, `book_appointment` posts an outbound UTC start of
2025-08-22T08:30:00Z (local time minus the fixed UTC+5:30 offset, ISO-8601
with trailing Z) and attendee name John Smith, and on the provider's created
response the returned booking_id equals the provider's issued identifier
(`bk_7f3a2c`) verbatim. -/
theorem C1_booking_scenario :
    (bookAppointment "build3-demo" initState envC1 "2025-08-22" "14:00" "john.smith@co.com").2 =
      (1, .ok
        (⟨"2025-08-22T08:30:00Z", "John Smith", "john.smith@co.com", "Asia/Kolkata",
          1234, "build3-demo", "roshan-flavis", "soraaya-team"⟩,
         ⟨true, "bk_7f3a2c", "Appointment booked successfully"⟩)) := by
  rfl

/-- C2 counterexample: against a provider whose all-visible listing returns
an empty set (HTTP 200, no groups) while the team-scoped listing of team
85823 does contain the configured slug, resolution fails with a not-found
error instead of succeeding — the code has no team-membership strategy. -/
theorem C2_counterexample :
    envC2.eventTypesResp = ⟨200, []⟩ ∧
    envC2.teamEventTypes 85823 = [etTeamOnly] ∧
    etTeamOnly.slug = "build3-demo" ∧
    getEventTypeR "build3-demo" envC2 =
      .error ("Failed to get event type details: Event type \x27build3-demo\x27 not found") :=
  ⟨rfl, rfl, rfl, rfl⟩

/-- C2 amended: event-type resolution uses a single strategy — one
all-visible `/event-types` listing whose groups are flattened and scanned
for the configured slug.  The outcome depends only on that listing (team
or personal scoped listings are never consulted), and a successful
resolution returns an event type from the listing bearing the configured
slug. -/
theorem C2_single_listing (slug : String) (p q : ProviderEnv)
    (h : p.eventTypesResp = q.eventTypesResp) :
    getEventTypeR slug p = getEventTypeR slug q ∧
    (∀ et, getEventTypeR slug p = .ok et →
      et ∈ flattenGroups p.eventTypesResp.eventTypeGroups ∧ et.slug = slug) := by
  constructor
  · unfold getEventTypeR
    rw [h]
  · intro et het
    unfold getEventTypeR at het
    split at het
    · cases hfind : (flattenGroups p.eventTypesResp.eventTypeGroups).find?
          (fun e => e.slug == slug) with
      | some e =>
        have hp := List.find?_some hfind
        have hm := List.mem_of_find?_eq_some hfind
        rw [hfind] at het
        cases het
        exact ⟨hm, eq_of_beq hp⟩
      | none =>
        rw [hfind] at het
        exact Except.noConfusion het
    · exact Except.noConfusion het

/-- C2 amended, witnessed: emptying every team-scoped listing does not
change the resolution outcome. -/
theorem C2_single_listing_witness :
    getEventTypeR "build3-demo" envC2 = getEventTypeR "build3-demo" envC2b :=
  (C2_single_listing "build3-demo" envC2 envC2b rfl).1

/-- C3: for every inbound booking request that passes the handler's own
validation (date not before today, time parseable as %H:%M), the webhook
handler invokes `CalClient.book_appointment` with keyword arguments
appointment_date, appointment_time and candidate_name, none of which are
parameters of `book_appointment` (target_date, time, email_id); the call
raises `TypeError` before any remote call, so the endpoint answers 500 and
never returns a success result. -/
theorem C3_keyword_mismatch (today : Date) (req : BookRequest)
    (run : Unit → Nat × HandlerResult)
    (hdate : dateLt req.target_date today = false)
    (htime : (pyStrptimeHM req.time).isSome = true) :
    handlerBookAppointment today req run = (0, .serverError 500 typeErrorDetail) := by
  have h2 : (pyStrptimeHM req.time).isNone = false := by
    cases hpt : pyStrptimeHM req.time
    · rw [hpt] at htime
      simp [Option.isSome] at htime
    · simp [Option.isNone]
  unfold handlerBookAppointment
  rw [hdate, h2]
  simp only [Bool.false_eq_true, if_false]
  rfl

/-- C3, witnessed on a concrete valid request. -/
theorem C3_keyword_mismatch_witness :
    handlerBookAppointment ⟨2025, 8, 22⟩ ⟨⟨2025, 8, 23⟩, "14:00", "John Smith"⟩
      (fun _ => (1, .success "x")) = (0, .serverError 500 typeErrorDetail) :=
  C3_keyword_mismatch ⟨2025, 8, 22⟩ ⟨⟨2025, 8, 23⟩, "14:00", "John Smith"⟩
    (fun _ => (1, .success "x")) (by rfl) (by rfl)

/-- Every slot `_process_real_availability` emits ends 30 minutes after its
start (the hardcoded constant at lines 512 and 522) and is marked
available. -/
theorem parseSlotTime_shape (ho : Int) (t : Option String) (s : Slot)
    (h : parseSlotTime ho t = some s) :
    s.end_time = addMinutesToTime s.start_time 30 ∧ s.available = true := by
  unfold parseSlotTime at h
  split at h
  · exact Option.noConfusion h
  · split at h
    · split at h
      · cases h
        exact ⟨rfl, rfl⟩
      · cases h
        exact ⟨rfl, rfl⟩
    · exact Option.noConfusion h

/-- Every slot of a completed loop run comes from the per-entry conversion
of some dict entry. -/
theorem processEntries_mem (ho : Int) (l : List SlotEntry) (slots : List Slot) (s : Slot)
    (h : processEntries ho l = some slots) (hs : s ∈ slots) :
    ∃ t, parseSlotTime ho t = some s := by
  induction l generalizing slots with
  | nil =>
    cases h
    exact absurd hs (List.not_mem_nil s)
  | cons e rest ih =>
    cases e with
    | nonDict => exact Option.noConfusion h
    | obj t =>
      unfold processEntries at h
      cases hrest : processEntries ho rest with
      | none =>
        rw [hrest] at h
        exact Option.noConfusion h
      | some tail =>
        rw [hrest] at h
        cases hp : parseSlotTime ho t with
        | some s0 =>
          rw [hp] at h
          cases h
          rcases List.mem_cons.mp hs with hEq | hMem
          · exact ⟨t, by rw [hp, hEq]⟩
          · exact ih _ hrest hMem
        | none =>
          rw [hp] at h
          cases h
          exact ih _ hrest hs

/-- A dict entry whose per-entry conversion is skipped does not change the
loop outcome. -/
theorem processEntries_append_obj_none (ho : Int) (t : Option String)
    (hp : parseSlotTime ho t = none) (xs ys : List SlotEntry) :
    processEntries ho (xs ++ .obj t :: ys) = processEntries ho (xs ++ ys) := by
  induction xs with
  | nil =>
    cases hys : processEntries ho ys with
    | none => simp only [List.nil_append, processEntries, hp, hys]
    | some tail => simp only [List.nil_append, processEntries, hp, hys]
  | cons e rest ih =>
    cases e with
    | nonDict => rfl
    | obj u =>
      simp only [List.cons_append]
      unfold processEntries
      rw [ih]

/-- A non-dict entry anywhere in the per-date list aborts the whole loop. -/
theorem processEntries_append_nonDict (ho : Int) (xs ys : List SlotEntry) :
    processEntries ho (xs ++ .nonDict :: ys) = none := by
  induction xs with
  | nil => rfl
  | cons e rest ih =>
    cases e with
    | nonDict => rfl
    | obj u =>
      simp only [List.cons_append]
      unfold processEntries
      rw [ih]

/-- C4 counterexample: with an event type of duration 60 and a provider slot
at 04:30 UTC on 2025-08-22, the availability conversion produces the local
slot 10:00-10:30 — the end time is start + 30, not start + 60, so end does
not equal start plus the event duration. -/
theorem C4_counterexample :
    etC4.length = some 60 ∧
    checkAvailability "build3-demo" envC4 ⟨2025, 8, 22⟩ 0 =
      .ok ⟨true, "2025-08-22", [⟨"10:00", "10:30", true⟩], "Found 1 available slots"⟩ ∧
    addMinutesToTime "10:00" 60 = "11:00" ∧
    ("10:30" : String) ≠ "11:00" :=
  ⟨rfl, rfl, rfl, by decide⟩

/-- C4 amended: each slot produced by the availability conversion has a
local end time equal to its local start time plus a fixed 30 minutes (the
event-type duration is never consulted), and the minute addition wraps
correctly modulo 24 hours, so a slot crossing midnight is not dropped. -/
theorem C4_fixed_thirty (slots_data : List (String × List SlotEntry)) (d : Date) (ho : Int) :
    (∀ s ∈ processRealAvailability slots_data d ho,
        s.end_time = addMinutesToTime s.start_time 30 ∧ s.available = true) ∧
    (∀ t h m mins, pyStrptimeHM t = some (h, m) →
        addMinutesToTime t mins = timeOfMinutes ((h * 60 + m + mins) % 1440)) := by
  constructor
  · intro s hs
    unfold processRealAvailability at hs
    cases hpe : processEntries ho (lookupSlots slots_data (dateStr d)) with
    | none =>
      rw [hpe] at hs
      exact absurd hs (List.not_mem_nil s)
    | some slots =>
      rw [hpe] at hs
      obtain ⟨t, ht⟩ := processEntries_mem ho _ slots s hpe hs
      exact parseSlotTime_shape ho t s ht
  · intro t h m mins hp
    unfold addMinutesToTime
    rw [hp]

/-- C4 amended, witnessed: the 10:00 slot of the C4 scenario ends at
start + 30, and adding 60 minutes to a parsed 23:45 wraps to 00:45. -/
theorem C4_fixed_thirty_witness :
    ((⟨"10:00", "10:30", true⟩ : Slot).end_time =
        addMinutesToTime (⟨"10:00", "10:30", true⟩ : Slot).start_time 30 ∧
      (⟨"10:00", "10:30", true⟩ : Slot).available = true) ∧
    addMinutesToTime "23:45" 60 = timeOfMinutes ((23 * 60 + 45 + 60) % 1440) :=
  ⟨(C4_fixed_thirty [("2025-08-22", [.obj (some "2025-08-22T04:30:00.000Z")])] ⟨2025, 8, 22⟩ 0).1
      ⟨"10:00", "10:30", true⟩ (by decide),
   (C4_fixed_thirty [] ⟨2025, 8, 22⟩ 0).2 "23:45" 23 45 60 (by rfl)⟩

/-- C5: converting any local wall-clock minute-of-day to UTC by subtracting
the fixed 5h30m offset (the booking path, `istToUtc`) and converting the
resulting UTC instant back to a local HH:MM by adding the same offset (the
slot-response path, `utcToIstHM`) reproduces the original hour and minute
exactly. -/
theorem C5_roundtrip (d : Date) (localMin : Nat) (hl : localMin < 1440) :
    utcToIstHM ((istToUtc d localMin).2 : Int) = (localMin / 60, localMin % 60) := by
  unfold istToUtc
  split
  · show utcToIstHM ((localMin - 330 : Nat) : Int) = _
    unfold utcToIstHM
    rw [Prod.mk.injEq]
    exact ⟨by omega, by omega⟩
  · show utcToIstHM ((localMin + 1110 : Nat) : Int) = _
    unfold utcToIstHM
    rw [Prod.mk.injEq]
    exact ⟨by omega, by omega⟩

/-- C5, witnessed at 14:00 (the C1 booking time). -/
theorem C5_roundtrip_witness :
    utcToIstHM ((istToUtc ⟨2025, 8, 22⟩ 840).2 : Int) = (14, 0) :=
  C5_roundtrip ⟨2025, 8, 22⟩ 840 (by decide)

/-- C6 counterexample: the time string 9:05 does not match 24-hour HH:MM
syntax exactly, yet strptime parses it, so the handler does not reject the
request with a client error — it proceeds past validation (and then fails
with the 500 of the keyword mismatch, not a 400 rejection). -/
theorem C6_counterexample :
    isExactHHMM "9:05" = false ∧
    pyStrptimeHM "9:05" = some (9, 5) ∧
    handlerBookAppointment ⟨2025, 8, 22⟩ ⟨⟨2025, 8, 23⟩, "9:05", "Jane"⟩
        (fun _ => (1, .success "x")) = (0, .serverError 500 typeErrorDetail) ∧
    HandlerResult.serverError 500 typeErrorDetail ≠
      .clientError 400 "Invalid time format. Please use HH:MM format (e.g., 14:30)" :=
  ⟨rfl, rfl, rfl, by decide⟩

/-- C6 amended: requests dated before today are rejected 400 with zero
remote calls; requests whose time `strptime %H:%M` cannot parse are rejected
400 with zero remote calls; requests whose time strptime does parse (a
superset of exact HH:MM that also accepts single-digit forms such as 9:05)
pass validation and reach the client dispatch. -/
theorem C6_validation (today : Date) (req : BookRequest)
    (run : Unit → Nat × HandlerResult) :
    (dateLt req.target_date today = true →
      handlerBookAppointment today req run =
        (0, .clientError 400 "Cannot book appointments for past dates")) ∧
    (dateLt req.target_date today = false → pyStrptimeHM req.time = none →
      handlerBookAppointment today req run =
        (0, .clientError 400 "Invalid time format. Please use HH:MM format (e.g., 14:30)")) ∧
    (dateLt req.target_date today = false → (pyStrptimeHM req.time).isSome = true →
      handlerBookAppointment today req run = callBookAppointmentKw handlerCallKeywords run) := by
  refine ⟨?_, ?_, ?_⟩
  · intro h
    unfold handlerBookAppointment
    rw [h]
    simp
  · intro h1 h2
    unfold handlerBookAppointment
    rw [h1, h2]
    simp
  · intro h1 h2
    have h3 : (pyStrptimeHM req.time).isNone = false := by
      cases hpt : pyStrptimeHM req.time
      · rw [hpt] at h2
        simp [Option.isSome] at h2
      · simp [Option.isNone]
    unfold handlerBookAppointment
    rw [h1, h3]
    simp

/-- C6 amended, witnessed on a past date, an unparseable time, and a valid
time. -/
theorem C6_validation_witness :
    handlerBookAppointment ⟨2025, 8, 22⟩ ⟨⟨2025, 8, 21⟩, "14:00", "J"⟩
        (fun _ => (1, .success "x")) =
      (0, .clientError 400 "Cannot book appointments for past dates") ∧
    handlerBookAppointment ⟨2025, 8, 22⟩ ⟨⟨2025, 8, 23⟩, "25:99", "J"⟩
        (fun _ => (1, .success "x")) =
      (0, .clientError 400 "Invalid time format. Please use HH:MM format (e.g., 14:30)") ∧
    handlerBookAppointment ⟨2025, 8, 22⟩ ⟨⟨2025, 8, 23⟩, "14:30", "J"⟩
        (fun _ => (1, .success "x")) =
      callBookAppointmentKw handlerCallKeywords (fun _ => (1, .success "x")) :=
  ⟨(C6_validation ⟨2025, 8, 22⟩ ⟨⟨2025, 8, 21⟩, "14:00", "J"⟩ _).1 (by rfl),
   (C6_validation ⟨2025, 8, 22⟩ ⟨⟨2025, 8, 23⟩, "25:99", "J"⟩ _).2.1 (by rfl) (by rfl),
   (C6_validation ⟨2025, 8, 22⟩ ⟨⟨2025, 8, 23⟩, "14:30", "J"⟩ _).2.2 (by rfl) (by rfl)⟩

/-- C7 counterexample: a 200 response with no slots for the requested date
yields `success = true` with the message `Found 0 available slots` — not a
success=false-style signal. -/
theorem C7_counterexample :
    checkAvailability "build3-demo" envC7 ⟨2025, 8, 23⟩ 0 =
      .ok ⟨true, "2025-08-23", [], "Found 0 available slots"⟩ ∧
    ({ success := true, target_date := "2025-08-23", available_slots := [],
       message := "Found 0 available slots" } : AvailResult).success ≠ false :=
  ⟨rfl, by decide⟩

/-- C7 amended: when the slots endpoint answers 200 with no slots for the
date, the availability operation returns an empty slot list with
`success = true` (no fabricated business hours, and not a success=false
signal); when the endpoint answers non-200 it raises an error surfaced to
the caller.  Default business-hours fabrication exists only in the legacy
`_process_availability` helper, which no live path calls. -/
theorem C7_empty_and_errors (slug : String) (env : ProviderEnv) (d : Date) (ho : Int)
    (et : EventType) (hres : getEventTypeR slug env = .ok et) (hid : ¬ et.id = 0)
    (hteam : et.teamId.getD 0 ≠ 0) :
    (env.teamSlotsResp.status = 200 →
      lookupSlots env.teamSlotsResp.slots (dateStr d) = [] →
      checkAvailability slug env d ho =
        .ok ⟨true, dateStr d, [], "Found 0 available slots"⟩) ∧
    (env.teamSlotsResp.status ≠ 200 →
      checkAvailability slug env d ho =
        .error ("Failed to check availability: Failed to check team availability: HTTP "
                ++ toString env.teamSlotsResp.status)) ∧
    generateBusinessHours d ≠ [] ∧
    processAvailability none d = generateBusinessHours d := by
  refine ⟨?_, ?_, ?_, rfl⟩
  · intro h200 hempty
    have hslots : processRealAvailability env.teamSlotsResp.slots d ho = [] := by
      unfold processRealAvailability
      rw [hempty]
      rfl
    simp only [checkAvailability, hres]
    rw [if_neg hid, if_pos hteam, if_pos h200, hslots]
    simp only [List.length_nil]
    rfl
  · intro hneq
    simp only [checkAvailability, hres]
    rw [if_neg hid, if_pos hteam, if_neg hneq]
  · exact fun hc => List.noConfusion hc

/-- C7 amended, witnessed: empty 200 response and a 500 failure. -/
theorem C7_empty_and_errors_witness :
    checkAvailability "build3-demo" envC7 ⟨2025, 8, 23⟩ 0 =
      .ok ⟨true, "2025-08-23", [], "Found 0 available slots"⟩ ∧
    checkAvailability "build3-demo" envC7b ⟨2025, 8, 23⟩ 0 =
      .error "Failed to check availability: Failed to check team availability: HTTP 500" :=
  ⟨(C7_empty_and_errors "build3-demo" envC7 ⟨2025, 8, 23⟩ 0 etC1 rfl
      (by decide) (by decide)).1 rfl rfl,
   (C7_empty_and_errors "build3-demo" envC7b ⟨2025, 8, 23⟩ 0 etC1 rfl
      (by decide) (by decide)).2.1 (by decide)⟩

/-- C8: when the provider declines a booking whose error message carries
`no_available_users_found_error`, `book_appointment` fails with the
distinct no-available-assignee failure carrying one of the two
human-readable remediation hints (which one depends on exact-match versus
containment), not the generic error shape, and it makes exactly one POST
(no automatic retry). -/
theorem C8_no_available_assignee (slug : String) (st : ClientState) (env : ProviderEnv)
    (target_date time email_id msg code : String) (et : EventType)
    (dtv : Date × Nat × Nat × Option Int)
    (hres : getEventTypeR slug env = .ok et)
    (hdt : pyFromIso (target_date ++ "T" ++ time ++ ":00") = some dtv)
    (hresp : env.bookingResp = .declined msg code)
    (hmsg : strContains msg "no_available_users_found_error" = true) :
    (bookAppointment slug st env target_date time email_id).2 =
      (1, .error (.noAvailableAssignee
        (if msg == "no_available_users_found_error" then noAssigneeSlotHint
         else noAssigneeMembersHint))) ∧
    (∀ m, BookFailure.noAvailableAssignee noAssigneeSlotHint ≠ .generic m) ∧
    (∀ m, BookFailure.noAvailableAssignee noAssigneeMembersHint ≠ .generic m) := by
  obtain ⟨d, hh, mi, off⟩ := dtv
  refine ⟨?_, fun m hne => BookFailure.noConfusion hne, fun m hne => BookFailure.noConfusion hne⟩
  simp only [bookAppointment, hres, hdt, hresp]
  cases hbeq : (msg == "no_available_users_found_error") with
  | true => simp [classifyDecline, hbeq]
  | false => simp [classifyDecline, hbeq, hmsg]

/-- C8, witnessed on a concrete decline carrying the error code. -/
theorem C8_no_available_assignee_witness :
    (bookAppointment "build3-demo" initState envC8 "2025-08-22" "14:00" "a.b@c.d").2 =
      (1, .error (.noAvailableAssignee noAssigneeSlotHint)) :=
  (C8_no_available_assignee "build3-demo" initState envC8 "2025-08-22" "14:00" "a.b@c.d"
    "no_available_users_found_error" "no_available_users_found_error" etC1
    (⟨2025, 8, 22⟩, 14, 0, none) rfl rfl rfl (by rfl)).1

/-- C9 counterexample: a non-dict slot entry raises at `slot.get` (line
491), outside the per-slot try, and the function-level except returns the
empty list — the already-valid 04:30 UTC slot is discarded, so the claim
that a failing entry is skipped while the remaining validly parsed slots
are returned is false for unexpected-shape entries. -/
theorem C9_counterexample :
    processRealAvailability
        [("2025-08-22", [.obj (some "2025-08-22T04:30:00.000Z"), .nonDict])]
        ⟨2025, 8, 22⟩ 0 = [] ∧
    processRealAvailability
        [("2025-08-22", [.obj (some "2025-08-22T04:30:00.000Z")])]
        ⟨2025, 8, 22⟩ 0 = [⟨"10:00", "10:30", true⟩] ∧
    ([] : List Slot) ≠ [⟨"10:00", "10:30", true⟩] :=
  ⟨rfl, rfl, by decide⟩

/-- C9 amended: a dict-shaped slot entry that fails to parse (missing or
empty time field, or a time without a T) is skipped individually, leaving
the other slots unaffected; but a non-dict slot entry raises outside the
per-slot try and the function-level except returns an empty list, aborting
the whole parse and discarding every valid slot of the response.  In both
cases the availability call itself still returns success when the slots
endpoint answered 200 (with the surviving slots, or with none). -/
theorem C9_partial_parse (ho : Int) (d : Date) (xs ys : List SlotEntry) (t : Option String)
    (he : parseSlotTime ho t = none) :
    processRealAvailability [(dateStr d, xs ++ .obj t :: ys)] d ho =
      processRealAvailability [(dateStr d, xs ++ ys)] d ho ∧
    processRealAvailability [(dateStr d, xs ++ .nonDict :: ys)] d ho = [] ∧
    (∀ slug env et, getEventTypeR slug env = .ok et → ¬ et.id = 0 →
      et.teamId.getD 0 ≠ 0 → env.teamSlotsResp.status = 200 →
      checkAvailability slug env d ho =
        .ok ⟨true, dateStr d, processRealAvailability env.teamSlotsResp.slots d ho,
             "Found " ++ toString (processRealAvailability env.teamSlotsResp.slots d ho).length
               ++ " available slots"⟩) := by
  have hl : ∀ l : List SlotEntry, lookupSlots [(dateStr d, l)] (dateStr d) = l := by
    intro l
    unfold lookupSlots
    rw [if_pos rfl]
  refine ⟨?_, ?_, ?_⟩
  · unfold processRealAvailability
    rw [hl, hl, processEntries_append_obj_none ho t he]
  · unfold processRealAvailability
    rw [hl, processEntries_append_nonDict]
  · intro slug env et hres hid hteam h200
    simp only [checkAvailability, hres]
    rw [if_neg hid, if_pos hteam, if_pos h200]

/-- C9 amended, witnessed: a garbage dict entry is skipped while the valid
04:30 UTC slot survives, a non-dict entry wipes the whole response, and the
call still succeeds for the all-dict provider response. -/
theorem C9_partial_parse_witness :
    processRealAvailability
        [("2025-08-22", [.obj (some "2025-08-22T04:30:00.000Z"), .obj (some "garbage")])]
        ⟨2025, 8, 22⟩ 0 =
      processRealAvailability [("2025-08-22", [.obj (some "2025-08-22T04:30:00.000Z")])]
        ⟨2025, 8, 22⟩ 0 ∧
    processRealAvailability
        [("2025-08-22", [.obj (some "2025-08-22T04:30:00.000Z"), .nonDict])]
        ⟨2025, 8, 22⟩ 0 = [] ∧
    checkAvailability "build3-demo" envC9 ⟨2025, 8, 22⟩ 0 =
      .ok ⟨true, "2025-08-22",
           processRealAvailability envC9.teamSlotsResp.slots ⟨2025, 8, 22⟩ 0,
           "Found " ++ toString
               (processRealAvailability envC9.teamSlotsResp.slots ⟨2025, 8, 22⟩ 0).length
             ++ " available slots"⟩ :=
  ⟨(C9_partial_parse 0 ⟨2025, 8, 22⟩ [.obj (some "2025-08-22T04:30:00.000Z")] []
      (some "garbage") (by rfl)).1,
   (C9_partial_parse 0 ⟨2025, 8, 22⟩ [.obj (some "2025-08-22T04:30:00.000Z")] []
      (some "garbage") (by rfl)).2.1,
   (C9_partial_parse 0 ⟨2025, 8, 22⟩ [] [] (some "garbage") (by rfl)).2.2
     "build3-demo" envC9 etC1 rfl (by decide) (by decide) rfl⟩

/-- C10 counterexample: after a first successful event-type resolution, a
second call to the lookup still performs one remote listing request — the
event-type descriptor is not cached, contradicting the claim that every
subsequent lookup returns a cached value with no remote discovery. -/
theorem C10_counterexample :
    (getEventTypeS "build3-demo" initState envC10).1 = .ok etC1 ∧
    (getEventTypeS "build3-demo"
        (getEventTypeS "build3-demo" initState envC10).2.1 envC10).2.2 = 1 ∧
    (1 : Nat) ≠ 0 :=
  ⟨rfl, rfl, by decide⟩

/-- C10 amended: the actor's user identifier is cached after the first
successful fetch — any later `_get_user_id` call returns the cached value
with zero remote calls, whatever the provider would now answer — while
`_get_event_type` performs one remote listing request on every call (no
event-type cache exists). -/
theorem C10_caching (st st2 : ClientState) (r r2 : MeResponse) (uid n : Nat)
    (h : getUserIdS st r = (some uid, st2, n)) :
    getUserIdS st2 r2 = (some uid, st2, 0) ∧
    (∀ slug env st3, (getEventTypeS slug st3 env).2.2 = 1) := by
  refine ⟨?_, fun slug env st3 => rfl⟩
  unfold getUserIdS at h
  split at h
  · rename_i hc
    simp only [Prod.mk.injEq] at h
    obtain ⟨h1, h2, -⟩ := h
    subst h2
    unfold getUserIdS
    rw [if_pos hc, h1]
  · split at h
    · simp only [Prod.mk.injEq] at h
      exact absurd h.1 (by simp)
    · split at h
      · split at h
        · rename_i uiv
          split at h
          · rename_i huid
            simp only [Prod.mk.injEq] at h
            obtain ⟨h1, h2, -⟩ := h
            cases h1
            subst h2
            unfold getUserIdS
            have hc2 : ({ user_id := some uid } : ClientState).user_id.getD 0 ≠ 0 := huid
            rw [if_pos hc2]
          · simp only [Prod.mk.injEq] at h
            exact absurd h.1 (by simp)
        · simp only [Prod.mk.injEq] at h
          exact absurd h.1 (by simp)
      · simp only [Prod.mk.injEq] at h
        exact absurd h.1 (by simp)

/-- C10 amended, witnessed: after caching user id 42, a later call returns
it with zero remote calls even against a dead provider, while a repeated
event-type lookup still costs one remote call. -/
theorem C10_caching_witness :
    getUserIdS ⟨some 42⟩ ⟨false, "", none⟩ = (some 42, ⟨some 42⟩, 0) ∧
    (getEventTypeS "build3-demo" initState envC10).2.2 = 1 :=
  ⟨(C10_caching initState ⟨some 42⟩ ⟨true, "success", some 42⟩ ⟨false, "", none⟩
      42 1 rfl).1,
   (C10_caching initState ⟨some 42⟩ ⟨true, "success", some 42⟩ ⟨false, "", none⟩
      42 1 rfl).2 "build3-demo" envC10 initState⟩

end VapiCal
